import Mathlib

/-!
Verification development for skyviewbot (src/skyviewbot/functions.py).

The pipeline is embedded shallowly:
* Python strings are lists of characters (`PyStr`).
* Python floats are rationals (`ℚ`); the claims under study concern only exact
  parse-and-pass-through of decimal literals, never IEEE rounding.
* Side effects (name-resolution lookups, survey fetches, figure rendering,
  Google Drive calls, HTTP posts, temporary-file creation and deletion, error
  logging) are recorded as an explicit event trace (`List Event`).
* External collaborators (the CDS name resolver, SkyView, aplpy, Google Drive)
  are oracles carried in an `Env`; the filesystem fact "client_secrets.json is
  present in the working directory" is the boolean `Env.secretsPresent`.
* A Python exception escaping a function is `Except.error`; a normal return of
  value `v` is `Except.ok v`.

Temporary-file lifetime follows CPython semantics of the source: the rendered
figure uses a `with tempfile.NamedTemporaryFile(...)` block, so its deletion is
emitted on every exit path of that block; the fetched FITS image uses a bare
`tempfile.NamedTemporaryFile()` held in a local variable, so it is deleted by
reference-count finalization when the frame dies on normal return, but when an
exception propagates the traceback keeps the frame (and hence the open file)
alive past the orchestrator's exit, so no deletion event is emitted on
exceptional paths.
-/

/-- Python strings modelled as lists of characters. -/
abbrev PyStr := List Char

/-- Embed a Lean string literal as a modelled Python string. -/
def pystr (s : String) : PyStr := s.data

/-- The single-quote character U+0027. -/
def quoteChar : Char := Char.ofNat 39

/-- Model of the Python expression msg_text.replace(chr(39), "") used at
functions.py:120: every single-quote character is removed. -/
def removeQuotes (l : PyStr) : PyStr := l.filter (fun c => c ≠ quoteChar)

/-- Numeric value of a decimal digit character. -/
def digitVal (c : Char) : ℕ := c.toNat - 48

/-- Value of a string of decimal digit characters, most significant first. -/
def natOfDigits (l : List Char) : ℕ := l.foldl (fun a c => 10 * a + digitVal c) 0

/-- Unsigned part of Python float() parsing, restricted to plain decimal
literals (digits with an optional single decimal point; at least one digit).
Exponents, whitespace, underscores, inf and nan are outside the fragment the
claims exercise; on this fragment the model agrees exactly with Python. -/
def parseUnsigned (l : PyStr) : Option ℚ :=
  match l.splitOn '.' with
  | [ip] =>
      if ip.isEmpty then none
      else if ip.all Char.isDigit then some (natOfDigits ip) else none
  | [ip, fp] =>
      if ip.isEmpty && fp.isEmpty then none
      else if ip.all Char.isDigit && fp.all Char.isDigit then
        some ((natOfDigits ip : ℚ) + (natOfDigits fp : ℚ) / (10 : ℚ) ^ fp.length)
      else none
  | _ => none

/-- Model of the Python builtin float() on decimal literals: optional sign,
then an unsigned decimal literal. Returns none where Python raises ValueError. -/
def pyFloat : PyStr → Option ℚ
  | '+' :: rest => parseUnsigned rest
  | '-' :: rest => (parseUnsigned rest).map (fun q => -q)
  | l => parseUnsigned l

/-- One attachment of the Slack payload, with the five fields built at
functions.py:123-133. -/
structure Attachment where
  color : PyStr
  author_name : PyStr
  title : PyStr
  text : PyStr
  image_url : PyStr
deriving DecidableEq

/-- The full Slack message: the dictionary with the single key "attachments"
holding a list of attachments. -/
structure SlackMessage where
  attachments : List Attachment
deriving DecidableEq

/-- Observable side effects of a pipeline run, in program order. -/
inductive Event where
  | resolveName (name : PyStr)
  | createTempFits (path : PyStr)
  | fetchImage (survey : PyStr) (ra dec fov : ℚ) (coord : PyStr) (path : PyStr)
  | createTempJpg (path : PyStr)
  | renderFigure (fits : PyStr) (title : PyStr) (cmap : PyStr) (colorbar : Bool) (out : PyStr)
  | googleAuth
  | googleUpload (path : PyStr)
  | httpPost (payload : SlackMessage)
  | deleteTempJpg (path : PyStr)
  | deleteTempFits (path : PyStr)
  | logError
deriving DecidableEq

/-- Python exceptions that the pipeline can let escape. -/
inductive PyErr where
  | valueError
  | nameNotFound
  | fetchError
  | renderError
  | uploadError
deriving DecidableEq

/-- Oracles for the external collaborators and the ambient filesystem. -/
structure Env where
  resolveName : PyStr → Option (ℚ × ℚ)
  secretsPresent : Bool
  fetchOk : Bool
  renderOk : Bool
  uploadOk : Bool
  googleId : PyStr
  tmpFitsPath : PyStr
  tmpJpgPath : PyStr

/-- Embedding of send_to_slack (functions.py:99-138): strip single quotes from
the body text, build the payload, POST it unless dry_run, return the payload. -/
def send_to_slack (msg_color msg_text field slack_id image_id : PyStr) (dry_run : Bool) :
    SlackMessage × List Event :=
  let stripped := removeQuotes msg_text
  let full_msg : SlackMessage :=
    { attachments := [
        { color := msg_color
          author_name := pystr "<@" ++ slack_id ++ pystr ">"
          title := pystr "SkyviewBot Image Post: " ++ field
          text := stripped
          image_url := pystr "http://drive.google.com/uc?export=download&id=" ++ image_id }] }
  if dry_run then (full_msg, []) else (full_msg, [Event.httpPost full_msg])

/-- Embedding of upload_to_google (functions.py:59-96): in dry-run return the
placeholder with no events; otherwise authorize, then upload and return the
provider id, or raise if the upload fails. -/
def upload_to_google (env : Env) (img_path : PyStr) (dry_run : Bool) :
    Option PyStr × List Event :=
  if dry_run then (some (pystr "dummy_google_id"), [])
  else if env.uploadOk then (some env.googleId, [Event.googleAuth, Event.googleUpload img_path])
  else (none, [Event.googleAuth])

/-- Embedding of the resolver step of skyviewbot (functions.py:198-202): if the
fieldname contains a comma, split on commas and two-way unpack (ValueError when
the split does not have exactly two parts), then parse each part as a float
(ValueError on malformed text); otherwise delegate to the external
name-resolution lookup coords_from_name. -/
def resolveField (env : Env) (fieldname : PyStr) :
    Except PyErr (ℚ × ℚ) × List Event :=
  if ',' ∈ fieldname then
    match fieldname.splitOn ',' with
    | [ra_str, dec_str] =>
      match pyFloat ra_str, pyFloat dec_str with
      | some ra, some dec => (Except.ok (ra, dec), [])
      | _, _ => (Except.error PyErr.valueError, [])
    | _ => (Except.error PyErr.valueError, [])
  else
    match env.resolveName fieldname with
    | some p => (Except.ok p, [Event.resolveName fieldname])
    | none => (Except.error PyErr.nameNotFound, [Event.resolveName fieldname])

/-- Path of the FITS file handed to the renderer: the caller-supplied one, or
the fetch tempfile's when the supplied name is empty (Python truthiness of
fits_name at functions.py:208). -/
def fitsPath (env : Env) (fits_name : PyStr) : PyStr :=
  if fits_name.isEmpty then env.tmpFitsPath else fits_name

/-- Events of the fetch step (functions.py:208-213): when no fits file was
supplied, a FITS tempfile is created and call_skyview is invoked on the
resolved position with frame J2000; otherwise nothing happens. -/
def fitsEvents (env : Env) (survey : PyStr) (ra dec radius : ℚ) (fits_name : PyStr) :
    List Event :=
  if fits_name.isEmpty then
    [Event.createTempFits env.tmpFitsPath,
     Event.fetchImage survey ra dec radius (pystr "J2000") env.tmpFitsPath]
  else []

/-- Events of entering the rendering with-block (functions.py:216-218): the
jpg tempfile is created and plot_fits renders with title = fieldname and the
colorbar enabled. -/
def renderEvents (env : Env) (fieldname fits_name colormap : PyStr) : List Event :=
  [Event.createTempJpg env.tmpJpgPath,
   Event.renderFigure (fitsPath env fits_name) fieldname colormap true env.tmpJpgPath]

/-- Embedding of the orchestrator skyviewbot (functions.py:181-225), statement
by statement: resolve the fieldname; if not dry-run and client_secrets.json is
absent, log an error and return False; if no fits file was supplied, create a
FITS tempfile and fetch into it with frame J2000; inside a with-block create a
jpg tempfile, render the figure (title = fieldname, colorbar on) and upload it
(the with-block deletes the jpg on every exit); send to Slack with a fixed
hex color; return True. The FITS tempfile deletion is emitted only on the
normal-return path (see the module comment on CPython finalization). -/
def skyviewbot (env : Env) (slack_id fieldname fits_name msg_text survey : PyStr)
    (radius : ℚ) (colormap : PyStr) (dry_run : Bool) :
    Except PyErr Bool × List Event :=
  match resolveField env fieldname with
  | (Except.error e, tr) => (Except.error e, tr)
  | (Except.ok (ra, dec), tr0) =>
    if !dry_run && !env.secretsPresent then
      (Except.ok false, tr0 ++ [Event.logError])
    else if fits_name.isEmpty && !env.fetchOk then
      (Except.error PyErr.fetchError, tr0 ++ fitsEvents env survey ra dec radius fits_name)
    else if !env.renderOk then
      (Except.error PyErr.renderError,
        tr0 ++ fitsEvents env survey ra dec radius fits_name ++
          renderEvents env fieldname fits_name colormap ++
          [Event.deleteTempJpg env.tmpJpgPath])
    else
      match upload_to_google env env.tmpJpgPath dry_run with
      | (none, utr) =>
        (Except.error PyErr.uploadError,
          tr0 ++ fitsEvents env survey ra dec radius fits_name ++
            renderEvents env fieldname fits_name colormap ++ utr ++
            [Event.deleteTempJpg env.tmpJpgPath])
      | (some image_id, utr) =>
        (Except.ok true,
          tr0 ++ fitsEvents env survey ra dec radius fits_name ++
            renderEvents env fieldname fits_name colormap ++ utr ++
            [Event.deleteTempJpg env.tmpJpgPath] ++
            (send_to_slack (pystr "#3D99DD") msg_text fieldname slack_id image_id dry_run).snd ++
            (if fits_name.isEmpty then [Event.deleteTempFits env.tmpFitsPath] else []))

/-- A concrete oracle environment with the credential file absent, all
external services succeeding, and the name resolver answering with the
documented coordinates of M101. -/
def envA : Env :=
  { resolveName := fun _ => some ((21080242917 : ℚ) / 100000000, (5434875 : ℚ) / 100000)
    secretsPresent := false
    fetchOk := true
    renderOk := true
    uploadOk := true
    googleId := pystr "gid"
    tmpFitsPath := pystr "/tmp/t.fits"
    tmpJpgPath := pystr "/tmp/t.jpg" }

/-- A variant environment in which the render stage raises. -/
def envRenderFail : Env :=
  { envA with renderOk := false }

/-! Helper lemmas about event traces and comma splitting. -/

lemma resolveField_events (env : Env) (f : PyStr) :
    ∀ e ∈ (resolveField env f).snd, e = Event.resolveName f := by
  unfold resolveField
  split
  · split
    · split <;> simp
    · simp
  · split <;> simp

lemma upload_events (env : Env) (p : PyStr) (dr : Bool) :
    ∀ e ∈ (upload_to_google env p dr).snd,
      e = Event.googleAuth ∨ e = Event.googleUpload p := by
  unfold upload_to_google
  split
  · simp
  · split <;> simp

lemma slack_payload (c t f r i : PyStr) (dr : Bool) :
    (send_to_slack c t f r i dr).fst =
      { attachments := [
          { color := c
            author_name := pystr "<@" ++ r ++ pystr ">"
            title := pystr "SkyviewBot Image Post: " ++ f
            text := removeQuotes t
            image_url := pystr "http://drive.google.com/uc?export=download&id=" ++ i }] } := by
  unfold send_to_slack
  split <;> rfl

lemma slack_events (c t f r i : PyStr) (dr : Bool) :
    ∀ e ∈ (send_to_slack c t f r i dr).snd, ∃ m, e = Event.httpPost m := by
  unfold send_to_slack
  split
  · simp
  · simp

lemma splitOn_eq_single_of_not_mem {c : Char} {l : PyStr} (h : c ∉ l) :
    l.splitOn c = [l] := by
  apply List.splitOnP_eq_single
  intro x hx hb
  exact h (by rwa [show x = c from by simpa using hb] at hx)

lemma comma_mem_of_splitOn_two {l a b : PyStr} (h : l.splitOn ',' = [a, b]) :
    ',' ∈ l := by
  by_contra hc
  rw [splitOn_eq_single_of_not_mem hc] at h
  simp at h

lemma length_splitOn_comma (l : PyStr) : (l.splitOn ',').length = l.count ',' + 1 := by
  induction l with
  | nil => rfl
  | cons a l ih =>
    show ((a :: l).splitOnP (· == ',')).length = _
    rw [List.splitOnP_cons]
    by_cases h : a = ','
    · subst h
      simpa using ih
    · simp only [beq_iff_eq, h, if_false, List.length_modifyHead, List.count_cons]
      simpa [h] using ih

lemma splitOn_ge_three {l : PyStr} (h : 2 ≤ l.count ',') :
    ∃ a b c rest, l.splitOn ',' = a :: b :: c :: rest := by
  have hl : 3 ≤ (l.splitOn ',').length := by
    rw [length_splitOn_comma]; omega
  rcases hs : l.splitOn ',' with _ | ⟨a, _ | ⟨b, _ | ⟨c, rest⟩⟩⟩ <;>
    rw [hs] at hl <;> simp at hl
  exact ⟨a, b, c, rest, rfl⟩

/-- C3: send_to_slack with dry_run true on the documented example inputs
returns exactly the documented payload and issues no HTTP request event; and
for every input the constructed payload is returned regardless of the dry-run
flag. -/
theorem send_to_slack_dry_run_example_payload :
    send_to_slack (pystr "#3A143E") (pystr "Test") (pystr "Test") (pystr "UH0H2QFC2")
        (pystr "1qWyC6xAHODREDfoZLH4qTYTDwt5m3EEk") true =
      ({ attachments := [
          { color := pystr "#3A143E"
            author_name := pystr "<@UH0H2QFC2>"
            title := pystr "SkyviewBot Image Post: Test"
            text := pystr "Test"
            image_url :=
              pystr "http://drive.google.com/uc?export=download&id=1qWyC6xAHODREDfoZLH4qTYTDwt5m3EEk" }] },
       [])
    ∧ ∀ (c t f r i : PyStr) (dr : Bool),
        (send_to_slack c t f r i dr).fst = (send_to_slack c t f r i true).fst := by
  constructor
  · rfl
  · intro c t f r i dr
    rw [slack_payload, slack_payload]

/-- C5: upload_to_google with dry_run true returns the literal placeholder
identifier and performs no network interaction at all, for every input path
and oracle environment. -/
theorem upload_to_google_dry_run (env : Env) (img_path : PyStr) :
    upload_to_google env img_path true = (some (pystr "dummy_google_id"), []) := rfl

/-- C6: the Notifier strips every single-quote character from the body text
before embedding it (the embedded text is removeQuotes of the input and
contains no single quote), and the stripping is idempotent. -/
theorem send_to_slack_strips_quotes (c t f r i : PyStr) (dr : Bool) :
    ((send_to_slack c t f r i dr).fst.attachments.map Attachment.text) = [removeQuotes t]
    ∧ quoteChar ∉ removeQuotes t
    ∧ removeQuotes (removeQuotes t) = removeQuotes t := by
  refine ⟨?_, ?_, ?_⟩
  · rw [slack_payload]
    rfl
  · simp [removeQuotes]
  · simp only [removeQuotes, List.filter_filter]
    simp

/-- C9: the quote stripping applies only to the body text: the color, field
label, recipient and resource identifier appear verbatim in the payload, the
title is the fixed prefix followed by the unmodified field label, and the
author name is the unmodified recipient wrapped in a mention. -/
theorem send_to_slack_only_text_stripped (c t f r i : PyStr) (dr : Bool) :
    (send_to_slack c t f r i dr).fst =
      { attachments := [
          { color := c
            author_name := pystr "<@" ++ r ++ pystr ">"
            title := pystr "SkyviewBot Image Post: " ++ f
            text := removeQuotes t
            image_url := pystr "http://drive.google.com/uc?export=download&id=" ++ i }] } :=
  slack_payload c t f r i dr

/-- C10: with dry_run true the Notifier is deterministic and side-effect free:
no HTTP request event is emitted, two calls with equal arguments return
identical payloads, and the payload depends on nothing but the five arguments
(in particular not on the dry-run flag). -/
theorem send_to_slack_dry_run_pure (c t f r i : PyStr) :
    (send_to_slack c t f r i true).snd = []
    ∧ (∀ c2 t2 f2 r2 i2 : PyStr, c2 = c → t2 = t → f2 = f → r2 = r → i2 = i →
        (send_to_slack c2 t2 f2 r2 i2 true).fst = (send_to_slack c t f r i true).fst)
    ∧ (∀ dr : Bool, (send_to_slack c t f r i dr).fst = (send_to_slack c t f r i true).fst) := by
  refine ⟨rfl, ?_, ?_⟩
  · intro c2 t2 f2 r2 i2 hc ht hf hr hi
    rw [hc, ht, hf, hr, hi]
  · intro dr
    rw [slack_payload, slack_payload]

/-- C10 witness: the determinism and dry-run purity theorem applied at
concrete arguments, with the equal-argument hypotheses discharged. -/
theorem send_to_slack_dry_run_pure_witness :
    (send_to_slack (pystr "#3A143E") (pystr "Test") (pystr "Test") (pystr "UH0H2QFC2")
        (pystr "img") true).snd = []
    ∧ (send_to_slack (pystr "#3A143E") (pystr "Test") (pystr "Test") (pystr "UH0H2QFC2")
        (pystr "img") true).fst =
      (send_to_slack (pystr "#3A143E") (pystr "Test") (pystr "Test") (pystr "UH0H2QFC2")
        (pystr "img") true).fst :=
  ⟨(send_to_slack_dry_run_pure (pystr "#3A143E") (pystr "Test") (pystr "Test")
      (pystr "UH0H2QFC2") (pystr "img")).1,
   (send_to_slack_dry_run_pure (pystr "#3A143E") (pystr "Test") (pystr "Test")
      (pystr "UH0H2QFC2") (pystr "img")).2.1 _ _ _ _ _ rfl rfl rfl rfl rfl⟩

/-- C2 counterexample: the target string with two commas contains a comma, yet
the resolver does not return two parsed floats: the two-way unpack of the
three-part split raises ValueError. -/
theorem resolveField_multi_comma_counterexample :
    ',' ∈ pystr "1,2,3"
    ∧ (pystr "1,2,3").splitOn ',' = [pystr "1", pystr "2", pystr "3"]
    ∧ resolveField envA (pystr "1,2,3") = (Except.error PyErr.valueError, []) :=
  ⟨by decide, by decide, rfl⟩

/-- C2 amended: for every target string whose comma split has exactly two
parts (exactly one comma), the resolver parses each part as a float and, with
no lookup event and no further validation, returns exactly those two values
unchanged as (ra, dec) when both parts parse, while malformed numeric text in
either part propagates the parse ValueError to the caller. -/
theorem resolveField_single_comma_roundtrip
    (env : Env) (s a b : PyStr)
    (hs : s.splitOn ',' = [a, b]) :
    (∀ x y : ℚ, pyFloat a = some x → pyFloat b = some y →
        resolveField env s = (Except.ok (x, y), []))
    ∧ ((pyFloat a = none ∨ pyFloat b = none) →
        resolveField env s = (Except.error PyErr.valueError, [])) := by
  have hmem : ',' ∈ s := comma_mem_of_splitOn_two hs
  constructor
  · intro x y ha hb
    unfold resolveField
    rw [if_pos hmem, hs]
    simp only [ha, hb]
  · intro h
    unfold resolveField
    rw [if_pos hmem, hs]
    rcases ha : pyFloat a with _ | x
    · rcases hb : pyFloat b with _ | y <;> simp only [ha, hb]
    · rcases hb : pyFloat b with _ | y
      · simp only [ha, hb]
      · rcases h with h | h
        · rw [ha] at h
          exact Option.noConfusion h
        · rw [hb] at h
          exact Option.noConfusion h

lemma pyFloat_ra_example : pyFloat (pystr "255.291") = some ((255291 : ℚ) / 1000) := by
  have h : (pystr "255.291").splitOn '.' = [['2', '5', '5'], ['2', '9', '1']] := by decide
  have hi : natOfDigits ['2', '5', '5'] = 255 := by decide
  have hf : natOfDigits ['2', '9', '1'] = 291 := by decide
  have c1 : ('1').isDigit = true := by decide
  have c2 : ('2').isDigit = true := by decide
  have c5 : ('5').isDigit = true := by decide
  have c9 : ('9').isDigit = true := by decide
  show parseUnsigned (pystr "255.291") = some ((255291 : ℚ) / 1000)
  unfold parseUnsigned
  rw [h]
  norm_num [hi, hf, c1, c2, c5, c9]

lemma pyFloat_dec_example : pyFloat (pystr "-29.911") = some (-((29911 : ℚ) / 1000)) := by
  have h : (pystr "29.911").splitOn '.' = [['2', '9'], ['9', '1', '1']] := by decide
  have hi : natOfDigits ['2', '9'] = 29 := by decide
  have hf : natOfDigits ['9', '1', '1'] = 911 := by decide
  have c1 : ('1').isDigit = true := by decide
  have c2 : ('2').isDigit = true := by decide
  have c9 : ('9').isDigit = true := by decide
  have hu : parseUnsigned (pystr "29.911") = some ((29911 : ℚ) / 1000) := by
    unfold parseUnsigned
    rw [h]
    norm_num [hi, hf, c1, c2, c9]
  show (parseUnsigned (pystr "29.911")).map (fun q => -q) = some (-((29911 : ℚ) / 1000))
  rw [hu]
  rfl

/-- C2 witness: the documented round trip (the string parses to exactly
255.291 and -29.911 as rationals, passed through with no validation) and the
malformed-text case: "abc,1" has exactly one comma, its first part fails to
parse, and the resolver propagates the ValueError. -/
theorem resolveField_single_comma_roundtrip_witness :
    (pystr "255.291,-29.911").splitOn ',' = [pystr "255.291", pystr "-29.911"]
    ∧ pyFloat (pystr "255.291") = some ((255291 : ℚ) / 1000)
    ∧ pyFloat (pystr "-29.911") = some (-((29911 : ℚ) / 1000))
    ∧ resolveField envA (pystr "255.291,-29.911") =
        (Except.ok ((255291 : ℚ) / 1000, -((29911 : ℚ) / 1000)), [])
    ∧ pyFloat (pystr "abc") = none
    ∧ resolveField envA (pystr "abc,1") = (Except.error PyErr.valueError, []) :=
  ⟨by decide, pyFloat_ra_example, pyFloat_dec_example,
   (resolveField_single_comma_roundtrip envA (pystr "255.291,-29.911")
      (pystr "255.291") (pystr "-29.911") (by decide)).1
     ((255291 : ℚ) / 1000) (-((29911 : ℚ) / 1000)) pyFloat_ra_example pyFloat_dec_example,
   by decide,
   (resolveField_single_comma_roundtrip envA (pystr "abc,1")
      (pystr "abc") (pystr "1") (by decide)).2 (Or.inl (by decide))⟩

/-- C8: a fieldname containing two or more commas makes skyviewbot raise the
two-way-unpack ValueError before the credential-file check and before any
pipeline stage: the result is the error with an empty event trace, for any
oracles, any other arguments and either dry-run value. -/
theorem skyviewbot_multi_comma_value_error
    (env : Env) (slack_id fieldname fits_name msg_text survey : PyStr)
    (radius : ℚ) (colormap : PyStr) (dry_run : Bool)
    (h : 2 ≤ fieldname.count ',') :
    skyviewbot env slack_id fieldname fits_name msg_text survey radius colormap dry_run =
      (Except.error PyErr.valueError, []) := by
  have hmem : ',' ∈ fieldname := List.count_pos_iff.mp (by omega)
  obtain ⟨a, b, c, rest, hs⟩ := splitOn_ge_three h
  have hr : resolveField env fieldname = (Except.error PyErr.valueError, []) := by
    unfold resolveField
    rw [if_pos hmem, hs]
  unfold skyviewbot
  rw [hr]

/-- C8 witness: the multi-comma failure on the concrete fieldname with two
commas, in dry-run mode with all oracles succeeding. -/
theorem skyviewbot_multi_comma_value_error_witness :
    2 ≤ (pystr "1,2,3").count ','
    ∧ skyviewbot envA (pystr "UH0H2QFC2") (pystr "1,2,3") [] (pystr "hi") (pystr "DSS")
        1 (pystr "viridis") true = (Except.error PyErr.valueError, []) :=
  ⟨by decide,
   skyviewbot_multi_comma_value_error envA (pystr "UH0H2QFC2") (pystr "1,2,3") [] (pystr "hi")
     (pystr "DSS") 1 (pystr "viridis") true (by decide)⟩

/-- C1 counterexample: with dry_run false and client_secrets.json absent, a
comma-free fieldname makes the orchestrator perform the external
name-resolution lookup before the credential check reports failure, so the
failure is not free of network activity. -/
theorem skyviewbot_missing_secrets_lookup_counterexample :
    skyviewbot envA (pystr "UH0H2QFC2") (pystr "M101") [] (pystr "hi") (pystr "DSS")
        1 (pystr "viridis") false =
      (Except.ok false, [Event.resolveName (pystr "M101"), Event.logError])
    ∧ Event.resolveName (pystr "M101") ∈
        (skyviewbot envA (pystr "UH0H2QFC2") (pystr "M101") [] (pystr "hi") (pystr "DSS")
          1 (pystr "viridis") false).snd := by
  have h : skyviewbot envA (pystr "UH0H2QFC2") (pystr "M101") [] (pystr "hi") (pystr "DSS")
      1 (pystr "viridis") false =
      (Except.ok false, [Event.resolveName (pystr "M101"), Event.logError]) := rfl
  refine ⟨h, ?_⟩
  rw [h]
  exact List.mem_cons_self _ _

/-- C1 amended: with dry_run false and the credential file absent, whenever
the resolver step completes without raising, skyviewbot returns False having
performed no fetch, render, upload or notification call: the only events are
the resolver's (each one a name-resolution lookup, so nothing at all when the
fieldname contains a comma) followed by the logged error. -/
theorem skyviewbot_missing_secrets_aborts
    (env : Env) (slack_id fieldname fits_name msg_text survey : PyStr)
    (radius : ℚ) (colormap : PyStr)
    (p : ℚ × ℚ) (tr0 : List Event)
    (hsec : env.secretsPresent = false)
    (hres : resolveField env fieldname = (Except.ok p, tr0)) :
    skyviewbot env slack_id fieldname fits_name msg_text survey radius colormap false =
      (Except.ok false, tr0 ++ [Event.logError])
    ∧ ∀ e ∈ tr0, e = Event.resolveName fieldname := by
  constructor
  · rcases p with ⟨ra, dec⟩
    unfold skyviewbot
    rw [hres]
    simp [hsec]
  · intro e he
    have h := resolveField_events env fieldname
    rw [hres] at h
    exact h e he

/-- C1 witness: the missing-credential abort applied at a concrete comma-free
fieldname and a concrete environment without the credential file. -/
theorem skyviewbot_missing_secrets_aborts_witness :
    envA.secretsPresent = false
    ∧ skyviewbot envA (pystr "UH0H2QFC2") (pystr "M101") (pystr "f.fits") (pystr "hi")
        (pystr "DSS") 1 (pystr "viridis") false =
      (Except.ok false, [Event.resolveName (pystr "M101")] ++ [Event.logError]) :=
  ⟨rfl,
   (skyviewbot_missing_secrets_aborts envA (pystr "UH0H2QFC2") (pystr "M101") (pystr "f.fits")
      (pystr "hi") (pystr "DSS") 1 (pystr "viridis")
      ((21080242917 : ℚ) / 100000000, (5434875 : ℚ) / 100000)
      [Event.resolveName (pystr "M101")] rfl rfl).1⟩

/-- C4 counterexample: dry_run true does not make every input succeed: a
fieldname with two commas raises ValueError in dry-run mode as well, so the
orchestrator does not return True for that input. -/
theorem skyviewbot_dry_run_failure_counterexample :
    skyviewbot envA (pystr "UH0H2QFC2") (pystr "9,9,9") [] (pystr "hi") (pystr "DSS")
        1 (pystr "viridis") true = (Except.error PyErr.valueError, [])
    ∧ (skyviewbot envA (pystr "UH0H2QFC2") (pystr "9,9,9") [] (pystr "hi") (pystr "DSS")
        1 (pystr "viridis") true).fst ≠ Except.ok true := by
  refine ⟨rfl, ?_⟩
  intro h
  rw [show (skyviewbot envA (pystr "UH0H2QFC2") (pystr "9,9,9") [] (pystr "hi") (pystr "DSS")
      1 (pystr "viridis") true).fst = Except.error PyErr.valueError from rfl] at h
  exact Except.noConfusion h

/-- C4 amended: with dry_run true the credential check is skipped entirely:
whenever the resolver succeeds and the fetch and render stages do not raise,
skyviewbot returns True whatever the state of client_secrets.json, in
particular when it is absent. -/
theorem skyviewbot_dry_run_success
    (env : Env) (slack_id fieldname fits_name msg_text survey : PyStr)
    (radius : ℚ) (colormap : PyStr)
    (p : ℚ × ℚ) (tr0 : List Event)
    (hres : resolveField env fieldname = (Except.ok p, tr0))
    (hfetch : fits_name.isEmpty = false ∨ env.fetchOk = true)
    (hrender : env.renderOk = true) :
    (skyviewbot env slack_id fieldname fits_name msg_text survey radius colormap true).fst =
      Except.ok true := by
  rcases p with ⟨ra, dec⟩
  unfold skyviewbot
  rw [hres]
  rcases hfetch with hf | hf
  · simp [hf, hrender, upload_to_google]
  · simp [hf, hrender, upload_to_google]

/-- C4 witness: a dry run with the credential file absent on a concrete
comma-free fieldname, fetched image and successful render. -/
theorem skyviewbot_dry_run_success_witness :
    envA.secretsPresent = false
    ∧ (skyviewbot envA (pystr "UH0H2QFC2") (pystr "M101") [] (pystr "hi") (pystr "DSS")
        1 (pystr "viridis") true).fst = Except.ok true :=
  ⟨rfl,
   skyviewbot_dry_run_success envA (pystr "UH0H2QFC2") (pystr "M101") [] (pystr "hi")
     (pystr "DSS") 1 (pystr "viridis")
     ((21080242917 : ℚ) / 100000000, (5434875 : ℚ) / 100000)
     [Event.resolveName (pystr "M101")] rfl (Or.inr rfl) rfl⟩

lemma skyviewbot_jpg_cleanup
    (env : Env) (slack_id fieldname fits_name msg_text survey : PyStr)
    (radius : ℚ) (colormap : PyStr) (dry_run : Bool)
    (h : Event.createTempJpg env.tmpJpgPath ∈
      (skyviewbot env slack_id fieldname fits_name msg_text survey radius colormap dry_run).snd) :
    Event.deleteTempJpg env.tmpJpgPath ∈
      (skyviewbot env slack_id fieldname fits_name msg_text survey radius colormap dry_run).snd := by
  rcases hres : resolveField env fieldname with ⟨res, tr0⟩
  have htr0 : ∀ e ∈ tr0, e = Event.resolveName fieldname := by
    have h0 := resolveField_events env fieldname
    rw [hres] at h0
    exact h0
  rcases res with e | ⟨ra, dec⟩
  · simp only [skyviewbot, hres] at h ⊢
    exact absurd (htr0 _ h) (by simp)
  · simp only [skyviewbot, hres] at h ⊢
    by_cases hcred : (!dry_run && !env.secretsPresent) = true
    · rw [if_pos hcred] at h ⊢
      exfalso
      simp only [List.mem_append] at h
      rcases h with h | h
      · exact absurd (htr0 _ h) (by simp)
      · simp at h
    · rw [if_neg hcred] at h ⊢
      by_cases hfetch : (fits_name.isEmpty && !env.fetchOk) = true
      · rw [if_pos hfetch] at h ⊢
        exfalso
        simp only [List.mem_append] at h
        rcases h with h | h
        · exact absurd (htr0 _ h) (by simp)
        · unfold fitsEvents at h
          revert h
          split <;> simp
      · rw [if_neg hfetch] at h ⊢
        by_cases hrender : (!env.renderOk) = true
        · rw [if_pos hrender] at h ⊢
          simp [renderEvents]
        · rw [if_neg hrender] at h ⊢
          rcases hup : upload_to_google env env.tmpJpgPath dry_run with ⟨uid, utr⟩
          rcases uid with _ | image_id
          · simp [renderEvents]
          · simp [renderEvents]

lemma skyviewbot_fits_cleanup_on_success
    (env : Env) (slack_id fieldname fits_name msg_text survey : PyStr)
    (radius : ℚ) (colormap : PyStr) (dry_run : Bool)
    (hok : (skyviewbot env slack_id fieldname fits_name msg_text survey radius colormap
        dry_run).fst = Except.ok true)
    (hempty : fits_name.isEmpty = true) :
    Event.deleteTempFits env.tmpFitsPath ∈
      (skyviewbot env slack_id fieldname fits_name msg_text survey radius colormap dry_run).snd := by
  rcases hres : resolveField env fieldname with ⟨res, tr0⟩
  rcases res with e | ⟨ra, dec⟩
  · simp only [skyviewbot, hres] at hok
    exact Except.noConfusion hok
  · simp only [skyviewbot, hres] at hok ⊢
    by_cases hcred : (!dry_run && !env.secretsPresent) = true
    · rw [if_pos hcred] at hok
      simp at hok
    · rw [if_neg hcred] at hok ⊢
      by_cases hfetch : (fits_name.isEmpty && !env.fetchOk) = true
      · rw [if_pos hfetch] at hok
        exact Except.noConfusion hok
      · rw [if_neg hfetch] at hok ⊢
        by_cases hrender : (!env.renderOk) = true
        · rw [if_pos hrender] at hok
          exact Except.noConfusion hok
        · rw [if_neg hrender] at hok ⊢
          rcases hup : upload_to_google env env.tmpJpgPath dry_run with ⟨uid, utr⟩
          rcases uid with _ | image_id
          · rw [hup] at hok
            simp at hok
          · rw [hup] at hok
            simp [hempty]

/-- C7 amended: the rendered-figure tempfile is a scoped resource: on every
exit path on which it is created it is also deleted. The fetched-image FITS
tempfile is deleted on the successful exit path, but (per the counterexample)
not on exit paths where a later stage raises, where its deletion is left to
interpreter finalization. -/
theorem skyviewbot_temp_cleanup
    (env : Env) (slack_id fieldname fits_name msg_text survey : PyStr)
    (radius : ℚ) (colormap : PyStr) (dry_run : Bool) :
    (Event.createTempJpg env.tmpJpgPath ∈
        (skyviewbot env slack_id fieldname fits_name msg_text survey radius colormap dry_run).snd →
      Event.deleteTempJpg env.tmpJpgPath ∈
        (skyviewbot env slack_id fieldname fits_name msg_text survey radius colormap dry_run).snd)
    ∧ ((skyviewbot env slack_id fieldname fits_name msg_text survey radius colormap dry_run).fst =
          Except.ok true →
        fits_name.isEmpty = true →
        Event.deleteTempFits env.tmpFitsPath ∈
          (skyviewbot env slack_id fieldname fits_name msg_text survey radius colormap
            dry_run).snd) :=
  ⟨fun h => skyviewbot_jpg_cleanup env slack_id fieldname fits_name msg_text survey radius
      colormap dry_run h,
   fun hok hempty => skyviewbot_fits_cleanup_on_success env slack_id fieldname fits_name
      msg_text survey radius colormap dry_run hok hempty⟩

/-- C7 counterexample: with a failing render stage and no supplied fits file,
the orchestrator raises and its trace creates the FITS tempfile but never
deletes it, so the fetched-image tempfile is not deleted on every exit path. -/
theorem skyviewbot_temp_fits_leak_counterexample :
    (skyviewbot envRenderFail (pystr "UH0H2QFC2") (pystr "1,2") [] (pystr "hi") (pystr "DSS")
        1 (pystr "viridis") true).fst = Except.error PyErr.renderError
    ∧ Event.createTempFits (pystr "/tmp/t.fits") ∈
        (skyviewbot envRenderFail (pystr "UH0H2QFC2") (pystr "1,2") [] (pystr "hi") (pystr "DSS")
          1 (pystr "viridis") true).snd
    ∧ Event.deleteTempFits (pystr "/tmp/t.fits") ∉
        (skyviewbot envRenderFail (pystr "UH0H2QFC2") (pystr "1,2") [] (pystr "hi") (pystr "DSS")
          1 (pystr "viridis") true).snd := by
  refine ⟨rfl, ?_, ?_⟩ <;> decide

/-- C7 witness: on a successful dry run with a fetched image both tempfiles
are deleted: the cleanup theorem's implications discharged at a concrete
input. -/
theorem skyviewbot_temp_cleanup_witness :
    Event.deleteTempJpg (pystr "/tmp/t.jpg") ∈
      (skyviewbot envA (pystr "UH0H2QFC2") (pystr "1,2") [] (pystr "hi") (pystr "DSS")
        1 (pystr "viridis") true).snd
    ∧ Event.deleteTempFits (pystr "/tmp/t.fits") ∈
      (skyviewbot envA (pystr "UH0H2QFC2") (pystr "1,2") [] (pystr "hi") (pystr "DSS")
        1 (pystr "viridis") true).snd :=
  ⟨(skyviewbot_temp_cleanup envA (pystr "UH0H2QFC2") (pystr "1,2") [] (pystr "hi") (pystr "DSS")
      1 (pystr "viridis") true).1 (by decide),
   (skyviewbot_temp_cleanup envA (pystr "UH0H2QFC2") (pystr "1,2") [] (pystr "hi") (pystr "DSS")
      1 (pystr "viridis") true).2 rfl rfl⟩
